import Mathlib

/-!
Shallow embedding of the MediaMix Hub catalog store and gallery controller
(src/frontend/app.js).

The store (`MockBackendAPI`) owns a list of media records (`AppState.mediaItems`)
and persists full snapshots to two localStorage slots.  Simulated latency
(`setTimeout`) is irrelevant to the functional behaviour and is dropped; the
nondeterministic environment (Date.now, Math.random, localStorage write
success) is passed in explicitly as an `Env` value.  A thrown JS exception is
modelled as an `Except.error` paired with the state as left behind by the side
effects that already happened before the throw.
-/

namespace MediaMix

/-- A persisted media record (the object literal built in `createMedia`). -/
structure MediaRecord where
  id : String
  fileName : String
  description : String
  uploadDate : String
  fileType : String
  fileSize : Nat
  deriving Repr, DecidableEq

/-- The snapshot object passed to `saveToStorage`:
`{ mediaItems, lastUpdated, version }`.  `loadFromStorage`'s default object has
no `lastUpdated` key, hence the `Option`. -/
structure Snapshot where
  mediaItems : List MediaRecord
  lastUpdated : Option String
  version : String
  deriving Repr, DecidableEq

/-- The default object `{ mediaItems: [], version: '1.0' }` returned by
`loadFromStorage` when a slot is absent or everything failed. -/
def emptySnapshot : Snapshot :=
  { mediaItems := [], lastUpdated := none, version := "1.0" }

/-- State of one localStorage slot as seen by `getItem` + `JSON.parse`:
the key is missing (`getItem` returns null), the read or parse throws
(corrupt contents / storage failure), or it holds a well-formed snapshot. -/
inductive Slot where
  | absent
  | corrupt
  | good (s : Snapshot)
  deriving Repr, DecidableEq

/-- The mutable state the store touches: the in-memory catalog
(`AppState.mediaItems`) and the two localStorage slots
(`mediamix_hub_data` and `mediamix_hub_backup`). -/
structure SysState where
  catalog : List MediaRecord
  primarySlot : Slot
  backupSlot : Slot
  deriving Repr, DecidableEq

/-- Errors thrown by the store: `'Media item not found'` from
update/delete, `'Storage quota exceeded or unavailable'` from
`saveToStorage`. -/
inductive StoreError where
  | notFound
  | storageUnavailable
  deriving Repr, DecidableEq

/-- The per-call environment: whether each `localStorage.setItem` call would
succeed, `Date.now().toString(36)`, `Math.random().toString(36).substr(2)`,
and `new Date().toISOString()`. -/
structure Env where
  primaryWriteOk : Bool
  backupWriteOk : Bool
  nowB36 : String
  randB36 : String
  nowIso : String
  deriving Repr, DecidableEq

/-- `Utils.generateId`: `Date.now().toString(36) + Math.random().toString(36).substr(2)`.
Pure concatenation of the two environment-supplied strings; no uniqueness
check against existing ids. -/
def generateId (env : Env) : String :=
  env.nowB36 ++ env.randB36

/-- `Utils.getFileType`: prefix test on the MIME type. -/
def getFileType (mimeType : String) : String :=
  if mimeType.startsWith "image/" then "image"
  else if mimeType.startsWith "video/" then "video"
  else if mimeType.startsWith "audio/" then "audio"
  else "unknown"

/-- The `validTypes` list of `Utils.isValidFileType`. -/
def validTypes : List String :=
  ["image/jpeg", "image/png", "image/gif", "image/webp",
   "video/mp4", "video/webm", "video/ogg",
   "audio/mp3", "audio/wav", "audio/ogg", "audio/mpeg"]

/-- A selected file as the handlers see it: `file.name`, `file.type`,
`file.size`. -/
structure MediaFile where
  name : String
  mimeType : String
  size : Nat
  deriving Repr, DecidableEq

/-- `Utils.isValidFileType`: membership in the fixed MIME-type list. -/
def isValidFileType (f : MediaFile) : Bool :=
  validTypes.contains f.mimeType

/-- The characters `String.prototype.trim` strips (JS WhiteSpace and
LineTerminator code points). -/
def isJsWhitespace (c : Char) : Bool :=
  c.val == 0x20 || c.val == 0x09 || c.val == 0x0a || c.val == 0x0d ||
  c.val == 0x0b || c.val == 0x0c || c.val == 0xa0 || c.val == 0x1680 ||
  (0x2000 ≤ c.val && c.val ≤ 0x200a) || c.val == 0x2028 || c.val == 0x2029 ||
  c.val == 0x202f || c.val == 0x205f || c.val == 0x3000 || c.val == 0xfeff

/-- `String.prototype.trim`: drop leading and trailing whitespace. -/
def jsTrim (s : String) : String :=
  ⟨((s.toList.dropWhile isJsWhitespace).reverse.dropWhile isJsWhitespace).reverse⟩

namespace MockBackendAPI

/-- `saveToStorage(data)`: one try block doing
`setItem(storageKey, ...)` then `setItem(backupKey, ...)`.
If the primary `setItem` throws, the backup slot is never written; if the
primary succeeds and the backup `setItem` throws, the primary slot keeps the
new snapshot.  Either throw surfaces as
`'Storage quota exceeded or unavailable'`. -/
def saveToStorage (env : Env) (st : SysState) (data : Snapshot) :
    Except StoreError Unit × SysState :=
  if env.primaryWriteOk then
    let st1 := { st with primarySlot := .good data }
    if env.backupWriteOk then
      (.ok (), { st1 with backupSlot := .good data })
    else
      (.error .storageUnavailable, st1)
  else
    (.error .storageUnavailable, st)

/-- Reading one slot: `getItem` + `JSON.parse`.  `none` means the slot was
absent (getItem returned null), an error means the read or parse threw. -/
def readSlot : Slot → Except Unit (Option Snapshot)
  | .absent => .ok none
  | .corrupt => .error ()
  | .good s => .ok (some s)

/-- `loadFromStorage()`: try primary; an absent primary yields the default
object without touching the backup; only a thrown read/parse falls through to
the backup, and a second throw yields the default object.  Total: every
failure is caught inside. -/
def loadFromStorage (st : SysState) : Snapshot :=
  match readSlot st.primarySlot with
  | .ok none => emptySnapshot
  | .ok (some s) => s
  | .error _ =>
    match readSlot st.backupSlot with
    | .ok none => emptySnapshot
    | .ok (some s) => s
    | .error _ => emptySnapshot

/-- The store `init()`: `AppState.mediaItems = loadFromStorage().mediaItems || []`,
with a catch-all that resets to `[]`; the slots themselves are not written. -/
def init (st : SysState) : SysState :=
  { st with catalog := (loadFromStorage st).mediaItems }

/-- The `mediaData` argument of `createMedia`. -/
structure MediaData where
  fileName : String
  description : String
  fileType : String
  fileSize : Nat
  deriving Repr, DecidableEq

/-- The record literal built inside `createMedia`. -/
def mkMediaItem (env : Env) (d : MediaData) : MediaRecord :=
  { id := generateId env
    fileName := d.fileName
    description := d.description
    uploadDate := env.nowIso
    fileType := d.fileType
    fileSize := d.fileSize }

/-- `createMedia(mediaData)`: build the record, push it onto
`AppState.mediaItems`, persist the full snapshot, return the record.  A
`saveToStorage` throw propagates with the push already applied. -/
def createMedia (env : Env) (st : SysState) (d : MediaData) :
    Except StoreError MediaRecord × SysState :=
  let item := mkMediaItem env d
  let catalog1 := st.catalog ++ [item]
  let snap : Snapshot :=
    { mediaItems := catalog1, lastUpdated := some env.nowIso, version := "1.0" }
  match saveToStorage env { st with catalog := catalog1 } snap with
  | (.ok _, st2) => (.ok item, st2)
  | (.error e, st2) => (.error e, st2)

/-- `getMedia()`: returns `[...AppState.mediaItems]`, a copy of the catalog. -/
def getMedia (st : SysState) : List MediaRecord :=
  st.catalog

/-- The `updates` object of `updateMedia`: each field is present or absent.
`{...item, ...updates}` overwrites exactly the present keys. -/
structure MediaUpdates where
  id : Option String := none
  fileName : Option String := none
  description : Option String := none
  uploadDate : Option String := none
  fileType : Option String := none
  fileSize : Option Nat := none
  deriving Repr, DecidableEq

/-- The spread merge `{ ...item, ...updates }`. -/
def applyUpdates (item : MediaRecord) (u : MediaUpdates) : MediaRecord :=
  { id := u.id.getD item.id
    fileName := u.fileName.getD item.fileName
    description := u.description.getD item.description
    uploadDate := u.uploadDate.getD item.uploadDate
    fileType := u.fileType.getD item.fileType
    fileSize := u.fileSize.getD item.fileSize }

/-- `updateMedia(id, updates)`: `findIndex` on id; throw `NotFound` when
absent (state untouched); otherwise replace the record at that index with the
spread merge, persist, and return the merged record.  A `saveToStorage` throw
propagates with the in-memory replacement already applied. -/
def updateMedia (env : Env) (st : SysState) (id : String) (u : MediaUpdates) :
    Except StoreError MediaRecord × SysState :=
  let i := st.catalog.findIdx (fun item => item.id = id)
  if h : i < st.catalog.length then
    let merged := applyUpdates (st.catalog.get ⟨i, h⟩) u
    let catalog1 := st.catalog.set i merged
    let snap : Snapshot :=
      { mediaItems := catalog1, lastUpdated := some env.nowIso, version := "1.0" }
    match saveToStorage env { st with catalog := catalog1 } snap with
    | (.ok _, st2) => (.ok merged, st2)
    | (.error e, st2) => (.error e, st2)
  else
    (.error .notFound, st)

/-- `deleteMedia(id)`: `findIndex` on id; throw `NotFound` when absent (state
untouched); otherwise `splice(index, 1)` and persist.  A `saveToStorage`
throw propagates with the removal already applied. -/
def deleteMedia (env : Env) (st : SysState) (id : String) :
    Except StoreError Unit × SysState :=
  let i := st.catalog.findIdx (fun item => item.id = id)
  if i < st.catalog.length then
    let catalog1 := st.catalog.eraseIdx i
    let snap : Snapshot :=
      { mediaItems := catalog1, lastUpdated := some env.nowIso, version := "1.0" }
    match saveToStorage env { st with catalog := catalog1 } snap with
    | (.ok _, st2) => (.ok (), st2)
    | (.error e, st2) => (.error e, st2)
  else
    (.error .notFound, st)

end MockBackendAPI

/-- What a controller handler did: bailed out early, rejected the input
before any store call (with the message shown), or called the store and got
a success (`storeOk` carries `createMedia`'s record, `storeDone` stands for
`updateMedia` success) or a caught store failure. -/
inductive HandlerOutcome where
  | ignored
  | validationError (msg : String)
  | storeOk (r : MediaRecord)
  | storeDone
  | storeFailed
  deriving Repr, DecidableEq

/-- `handleUpload`: bail when loading; validate file presence, MIME type,
trimmed description non-empty and ≤ 500; only then call `createMedia`.  A
store throw is caught and reported as a generic failure. -/
def handleUpload (env : Env) (st : SysState) (isLoading : Bool)
    (file : Option MediaFile) (rawDescription : String) :
    HandlerOutcome × SysState :=
  if isLoading then (.ignored, st)
  else
    let description := jsTrim rawDescription
    match file with
    | none => (.validationError "Please select a file to upload.", st)
    | some f =>
      if ¬ isValidFileType f then
        (.validationError "Invalid file type. Please select an image, video, or audio file.", st)
      else if description = "" then
        (.validationError "Please enter a description for your media.", st)
      else if description.length > 500 then
        (.validationError "Description must be 500 characters or less.", st)
      else
        let mediaData : MockBackendAPI.MediaData :=
          { fileName := f.name
            description := description
            fileType := getFileType f.mimeType
            fileSize := f.size }
        match MockBackendAPI.createMedia env st mediaData with
        | (.ok item, st1) => (.storeOk item, st1)
        | (.error _, st1) => (.storeFailed, st1)

/-- `handleSaveEdit`: bail without a current edit id; validate the trimmed
description non-empty and ≤ 500; only then call `updateMedia` with
`{ description }`.  A store throw is caught and reported. -/
def handleSaveEdit (env : Env) (st : SysState) (currentEditId : Option String)
    (rawDescription : String) : HandlerOutcome × SysState :=
  match currentEditId with
  | none => (.ignored, st)
  | some id =>
    let newDescription := jsTrim rawDescription
    if newDescription = "" then
      (.validationError "Description cannot be empty.", st)
    else if newDescription.length > 500 then
      (.validationError "Description must be 500 characters or less.", st)
    else
      match MockBackendAPI.updateMedia env st id { description := some newDescription } with
      | (.ok _, st1) => (.storeDone, st1)
      | (.error _, st1) => (.storeFailed, st1)

end MediaMix

/-! ## Helper lemmas about the store -/

namespace MediaMix

theorem saveToStorage_both_ok (env : Env) (st : SysState) (data : Snapshot)
    (hp : env.primaryWriteOk = true) (hb : env.backupWriteOk = true) :
    MockBackendAPI.saveToStorage env st data =
      (.ok (), { st with primarySlot := .good data, backupSlot := .good data }) := by
  simp [MockBackendAPI.saveToStorage, hp, hb]

theorem saveToStorage_fail (env : Env) (st : SysState) (data : Snapshot)
    (hw : env.primaryWriteOk = false ∨ env.backupWriteOk = false) :
    (MockBackendAPI.saveToStorage env st data).1 = .error .storageUnavailable := by
  rcases hw with h | h
  · simp [MockBackendAPI.saveToStorage, h]
  · cases hp : env.primaryWriteOk <;> simp [MockBackendAPI.saveToStorage, hp, h]

theorem saveToStorage_catalog (env : Env) (st : SysState) (data : Snapshot) :
    (MockBackendAPI.saveToStorage env st data).2.catalog = st.catalog := by
  cases hp : env.primaryWriteOk <;> cases hb : env.backupWriteOk <;>
    simp [MockBackendAPI.saveToStorage, hp, hb]

theorem createMedia_catalog (env : Env) (st : SysState) (d : MockBackendAPI.MediaData) :
    (MockBackendAPI.createMedia env st d).2.catalog =
      st.catalog ++ [MockBackendAPI.mkMediaItem env d] := by
  unfold MockBackendAPI.createMedia
  cases h : MockBackendAPI.saveToStorage env
      { st with catalog := st.catalog ++ [MockBackendAPI.mkMediaItem env d] }
      { mediaItems := st.catalog ++ [MockBackendAPI.mkMediaItem env d],
        lastUpdated := some env.nowIso, version := "1.0" } with
  | mk r st2 =>
    have : st2.catalog = st.catalog ++ [MockBackendAPI.mkMediaItem env d] := by
      have := saveToStorage_catalog env
        { st with catalog := st.catalog ++ [MockBackendAPI.mkMediaItem env d] }
        { mediaItems := st.catalog ++ [MockBackendAPI.mkMediaItem env d],
          lastUpdated := some env.nowIso, version := "1.0" }
      rw [h] at this
      exact this
    cases r <;> simpa [h]

end MediaMix

/-! ## C2 -/

namespace MediaMix

/-- C2 counterexample: with the primary `setItem` succeeding and only the
backup `setItem` failing, `saveToStorage` still throws StorageUnavailable —
the resulting primary slot holds the snapshot (the primary write succeeded),
refuting "if at least one of the two slot writes succeeds, the operation does
not raise StorageUnavailable". -/
theorem C2_counterexample :
    (MockBackendAPI.saveToStorage
        { primaryWriteOk := true, backupWriteOk := false,
          nowB36 := "t", randB36 := "r", nowIso := "ts" }
        { catalog := [], primarySlot := .absent, backupSlot := .absent }
        emptySnapshot).1 = Except.error .storageUnavailable ∧
    (MockBackendAPI.saveToStorage
        { primaryWriteOk := true, backupWriteOk := false,
          nowB36 := "t", randB36 := "r", nowIso := "ts" }
        { catalog := [], primarySlot := .absent, backupSlot := .absent }
        emptySnapshot).2.primarySlot = .good emptySnapshot :=
  ⟨rfl, rfl⟩

/-- C2 (amended): the persistence write fails with StorageUnavailable exactly
when NOT BOTH slot writes succeed — a failing backup write raises the error
even though the primary write succeeded; moreover when the primary write
fails the backup slot is never written. -/
theorem C2_save_fails_iff_not_both (env : Env) (st : SysState) (data : Snapshot) :
    (((MockBackendAPI.saveToStorage env st data).1 = Except.error .storageUnavailable) ↔
      ¬(env.primaryWriteOk = true ∧ env.backupWriteOk = true)) ∧
    (env.primaryWriteOk = false →
      (MockBackendAPI.saveToStorage env st data).2.backupSlot = st.backupSlot) := by
  cases hp : env.primaryWriteOk <;> cases hb : env.backupWriteOk <;>
    simp [MockBackendAPI.saveToStorage, hp, hb]

/-- C2 witness: the amended statement evaluated at a concrete
failing-primary environment, with the inner hypothesis discharged. -/
theorem C2_save_fails_iff_not_both_witness :
    (((MockBackendAPI.saveToStorage
        { primaryWriteOk := false, backupWriteOk := true,
          nowB36 := "t", randB36 := "r", nowIso := "ts" }
        { catalog := [], primarySlot := .absent, backupSlot := .absent }
        emptySnapshot).1 = Except.error .storageUnavailable) ↔
      ¬((false : Bool) = true ∧ (true : Bool) = true)) ∧
    (MockBackendAPI.saveToStorage
        { primaryWriteOk := false, backupWriteOk := true,
          nowB36 := "t", randB36 := "r", nowIso := "ts" }
        { catalog := [], primarySlot := .absent, backupSlot := .absent }
        emptySnapshot).2.backupSlot = Slot.absent :=
  ⟨(C2_save_fails_iff_not_both
      { primaryWriteOk := false, backupWriteOk := true,
        nowB36 := "t", randB36 := "r", nowIso := "ts" }
      { catalog := [], primarySlot := .absent, backupSlot := .absent }
      emptySnapshot).1,
   (C2_save_fails_iff_not_both
      { primaryWriteOk := false, backupWriteOk := true,
        nowB36 := "t", randB36 := "r", nowIso := "ts" }
      { catalog := [], primarySlot := .absent, backupSlot := .absent }
      emptySnapshot).2 rfl⟩

end MediaMix

/-! ## C1 -/

namespace MediaMix

/-- Concrete environment for C1: the backup `setItem` fails, so the
persistence write raises StorageUnavailable. -/
def c1Env : Env :=
  { primaryWriteOk := true, backupWriteOk := false,
    nowB36 := "t", randB36 := "r", nowIso := "ts" }

/-- A concrete pre-existing record for C1. -/
def c1Rec : MediaRecord :=
  { id := "a", fileName := "a.png", description := "cat",
    uploadDate := "d0", fileType := "image", fileSize := 2048 }

/-- Concrete pre-call state for C1: one record, empty slots. -/
def c1St : SysState :=
  { catalog := [c1Rec], primarySlot := .absent, backupSlot := .absent }

/-- Concrete create input for C1. -/
def c1Data : MockBackendAPI.MediaData :=
  { fileName := "b.mp4", description := "clip", fileType := "video", fileSize := 7 }

/-- C1 counterexample: when the persistence write fails with
StorageUnavailable, `createMedia` surfaces the error but the in-memory
catalog is NOT the same as before the call — the pushed record stays,
refuting the claimed all-or-nothing atomicity. -/
theorem C1_counterexample :
    (MockBackendAPI.createMedia c1Env c1St c1Data).1 =
      Except.error .storageUnavailable ∧
    (MockBackendAPI.createMedia c1Env c1St c1Data).2.catalog ≠ c1St.catalog :=
  ⟨rfl, by decide⟩

/-- C1 (amended): each mutating Store operation applies its in-memory
mutation and then persists.  When the persistence write fails with
StorageUnavailable the error is surfaced to the caller but the in-memory
mutation is NOT rolled back: after the failed create/update/delete the
Catalog equals the pre-call Catalog with the mutation applied (push at the
end / record replaced in place / record removed), not the pre-call Catalog. -/
theorem C1_no_rollback_on_storage_failure (env : Env) (st : SysState)
    (d : MockBackendAPI.MediaData) (id : String) (u : MockBackendAPI.MediaUpdates)
    (hw : env.primaryWriteOk = false ∨ env.backupWriteOk = false)
    (hi : st.catalog.findIdx (fun r => r.id = id) < st.catalog.length) :
    ((MockBackendAPI.createMedia env st d).1 = Except.error .storageUnavailable ∧
      (MockBackendAPI.createMedia env st d).2.catalog =
        st.catalog ++ [MockBackendAPI.mkMediaItem env d]) ∧
    ((MockBackendAPI.updateMedia env st id u).1 = Except.error .storageUnavailable ∧
      (MockBackendAPI.updateMedia env st id u).2.catalog =
        st.catalog.set (st.catalog.findIdx (fun r => r.id = id))
          (MockBackendAPI.applyUpdates
            (st.catalog.get ⟨st.catalog.findIdx (fun r => r.id = id), hi⟩) u)) ∧
    ((MockBackendAPI.deleteMedia env st id).1 = Except.error .storageUnavailable ∧
      (MockBackendAPI.deleteMedia env st id).2.catalog =
        st.catalog.eraseIdx (st.catalog.findIdx (fun r => r.id = id))) := by
  rcases hw with h | h
  · refine ⟨⟨?_, ?_⟩, ⟨?_, ?_⟩, ?_, ?_⟩ <;>
      simp [MockBackendAPI.createMedia, MockBackendAPI.updateMedia,
        MockBackendAPI.deleteMedia, MockBackendAPI.saveToStorage, h, hi]
  · cases hp : env.primaryWriteOk <;>
      refine ⟨⟨?_, ?_⟩, ⟨?_, ?_⟩, ?_, ?_⟩ <;>
        simp [MockBackendAPI.createMedia, MockBackendAPI.updateMedia,
          MockBackendAPI.deleteMedia, MockBackendAPI.saveToStorage, h, hp, hi]

/-- C1 witness: the amended statement at the concrete failing-backup
environment and one-record catalog, all hypotheses discharged. -/
theorem C1_no_rollback_witness :
    ((MockBackendAPI.createMedia c1Env c1St c1Data).1 =
        Except.error .storageUnavailable ∧
      (MockBackendAPI.createMedia c1Env c1St c1Data).2.catalog =
        [c1Rec, MockBackendAPI.mkMediaItem c1Env c1Data]) ∧
    ((MockBackendAPI.updateMedia c1Env c1St "a" { description := some "new" }).1 =
        Except.error .storageUnavailable ∧
      (MockBackendAPI.updateMedia c1Env c1St "a" { description := some "new" }).2.catalog =
        [MockBackendAPI.applyUpdates c1Rec { description := some "new" }]) ∧
    ((MockBackendAPI.deleteMedia c1Env c1St "a").1 =
        Except.error .storageUnavailable ∧
      (MockBackendAPI.deleteMedia c1Env c1St "a").2.catalog = []) :=
  C1_no_rollback_on_storage_failure c1Env c1St c1Data "a"
    { description := some "new" } (Or.inr rfl) (by decide)

end MediaMix

/-! ## C9 -/

namespace MediaMix

/-- C9: when the primary slot is merely absent (`getItem` returns null),
`init` yields an empty Catalog without consulting the backup slot — the
result is `[]` whatever the backup slot holds, even a valid non-empty
snapshot; and when the primary slot parses, its contents are used regardless
of the backup slot.  The backup is read only when the primary read/parse
throws. -/
theorem C9_absent_primary_skips_backup (st : SysState) (b : Slot) :
    (st.primarySlot = .absent →
      (MockBackendAPI.init st).catalog = [] ∧
      (MockBackendAPI.init { st with backupSlot := b }).catalog = []) ∧
    (∀ s : Snapshot, st.primarySlot = .good s →
      (MockBackendAPI.init { st with backupSlot := b }).catalog = s.mediaItems) := by
  constructor
  · intro h
    constructor <;>
      simp [MockBackendAPI.init, MockBackendAPI.loadFromStorage,
        MockBackendAPI.readSlot, h, emptySnapshot]
  · intro s h
    simp [MockBackendAPI.init, MockBackendAPI.loadFromStorage,
      MockBackendAPI.readSlot, h]

/-- A valid, non-empty backup snapshot for the C9 witness. -/
def c9Snap : Snapshot :=
  { mediaItems :=
      [{ id := "x", fileName := "x.wav", description := "song",
         uploadDate := "d1", fileType := "audio", fileSize := 9 }],
    lastUpdated := some "ts", version := "1.0" }

/-- C9 witness: with an absent primary slot, `init` yields `[]` both with an
absent backup and with a valid non-empty backup snapshot. -/
theorem C9_absent_primary_skips_backup_witness :
    (MockBackendAPI.init
      { catalog := [], primarySlot := .absent, backupSlot := .absent }).catalog = [] ∧
    (MockBackendAPI.init
      { catalog := [], primarySlot := .absent,
        backupSlot := .good c9Snap }).catalog = [] :=
  (C9_absent_primary_skips_backup
    { catalog := [], primarySlot := .absent, backupSlot := .absent }
    (.good c9Snap)).1 rfl

end MediaMix

/-! ## C4 -/

namespace MediaMix

/-- C4: when the primary slot read/parse throws but the backup slot holds a
valid snapshot, `init` recovers exactly the backup's record list; and for
every storage state, `init` (which never fails outward) leaves the Catalog
either empty or equal to the record list of one of the two slots. -/
theorem C4_backup_fallback (st : SysState) (s : Snapshot)
    (h1 : st.primarySlot = .corrupt) (h2 : st.backupSlot = .good s) :
    (MockBackendAPI.init st).catalog = s.mediaItems ∧
    ∀ st' : SysState, (MockBackendAPI.init st').catalog = [] ∨
      ∃ s' : Snapshot, (MockBackendAPI.init st').catalog = s'.mediaItems ∧
        (st'.primarySlot = .good s' ∨ st'.backupSlot = .good s') := by
  constructor
  · simp [MockBackendAPI.init, MockBackendAPI.loadFromStorage,
      MockBackendAPI.readSlot, h1, h2]
  · intro st'
    cases hp : st'.primarySlot with
    | absent =>
      left
      simp [MockBackendAPI.init, MockBackendAPI.loadFromStorage,
        MockBackendAPI.readSlot, hp, emptySnapshot]
    | good s' =>
      right
      exact ⟨s', by simp [MockBackendAPI.init, MockBackendAPI.loadFromStorage,
        MockBackendAPI.readSlot, hp], Or.inl rfl⟩
    | corrupt =>
      cases hb : st'.backupSlot with
      | absent =>
        left
        simp [MockBackendAPI.init, MockBackendAPI.loadFromStorage,
          MockBackendAPI.readSlot, hp, hb, emptySnapshot]
      | good s' =>
        right
        exact ⟨s', by simp [MockBackendAPI.init, MockBackendAPI.loadFromStorage,
          MockBackendAPI.readSlot, hp, hb], Or.inr rfl⟩
      | corrupt =>
        left
        simp [MockBackendAPI.init, MockBackendAPI.loadFromStorage,
          MockBackendAPI.readSlot, hp, hb, emptySnapshot]

/-- A valid, non-empty backup snapshot for the C4 witness. -/
def c4Snap : Snapshot :=
  { mediaItems :=
      [{ id := "y", fileName := "y.png", description := "pic",
         uploadDate := "d2", fileType := "image", fileSize := 4 }],
    lastUpdated := some "ts", version := "1.0" }

/-- C4 witness: a corrupt primary slot plus this concrete valid backup makes
`init` recover exactly the backup's record list. -/
theorem C4_backup_fallback_witness :
    (MockBackendAPI.init
      { catalog := [], primarySlot := .corrupt,
        backupSlot := .good c4Snap }).catalog = c4Snap.mediaItems :=
  (C4_backup_fallback
    { catalog := [], primarySlot := .corrupt, backupSlot := .good c4Snap }
    c4Snap rfl rfl).1

end MediaMix

/-! ## C3 -/

namespace MediaMix

/-- C3: for every Catalog, writing the full snapshot through `saveToStorage`
(with the persistence layer available) succeeds, and re-loading through
`init` yields a Catalog equal to the one before persistence — the same
records with the same field values in the same order. -/
theorem C3_persist_init_roundtrip (env : Env) (st : SysState) (lu : Option String)
    (hp : env.primaryWriteOk = true) (hb : env.backupWriteOk = true) :
    (MockBackendAPI.saveToStorage env st
        { mediaItems := st.catalog, lastUpdated := lu, version := "1.0" }).1 =
      .ok () ∧
    (MockBackendAPI.init
        (MockBackendAPI.saveToStorage env st
          { mediaItems := st.catalog, lastUpdated := lu, version := "1.0" }).2).catalog =
      st.catalog := by
  rw [saveToStorage_both_ok env st _ hp hb]
  exact ⟨rfl, by
    simp [MockBackendAPI.init, MockBackendAPI.loadFromStorage,
      MockBackendAPI.readSlot]⟩

/-- C3 witness: round trip of a concrete two-record catalog through
`saveToStorage` then `init`, preserving both records and their order. -/
theorem C3_persist_init_roundtrip_witness :
    (MockBackendAPI.saveToStorage
        { primaryWriteOk := true, backupWriteOk := true,
          nowB36 := "t", randB36 := "r", nowIso := "ts" }
        { catalog :=
            [{ id := "p", fileName := "p.png", description := "one",
               uploadDate := "d3", fileType := "image", fileSize := 1 },
             { id := "q", fileName := "q.mp4", description := "two",
               uploadDate := "d4", fileType := "video", fileSize := 2 }],
          primarySlot := .absent, backupSlot := .absent }
        { mediaItems :=
            [{ id := "p", fileName := "p.png", description := "one",
               uploadDate := "d3", fileType := "image", fileSize := 1 },
             { id := "q", fileName := "q.mp4", description := "two",
               uploadDate := "d4", fileType := "video", fileSize := 2 }],
          lastUpdated := some "lu", version := "1.0" }).1 = .ok () ∧
    (MockBackendAPI.init
        (MockBackendAPI.saveToStorage
          { primaryWriteOk := true, backupWriteOk := true,
            nowB36 := "t", randB36 := "r", nowIso := "ts" }
          { catalog :=
              [{ id := "p", fileName := "p.png", description := "one",
                 uploadDate := "d3", fileType := "image", fileSize := 1 },
               { id := "q", fileName := "q.mp4", description := "two",
                 uploadDate := "d4", fileType := "video", fileSize := 2 }],
            primarySlot := .absent, backupSlot := .absent }
          { mediaItems :=
              [{ id := "p", fileName := "p.png", description := "one",
                 uploadDate := "d3", fileType := "image", fileSize := 1 },
               { id := "q", fileName := "q.mp4", description := "two",
                 uploadDate := "d4", fileType := "video", fileSize := 2 }],
            lastUpdated := some "lu", version := "1.0" }).2).catalog =
      [{ id := "p", fileName := "p.png", description := "one",
         uploadDate := "d3", fileType := "image", fileSize := 1 },
       { id := "q", fileName := "q.mp4", description := "two",
         uploadDate := "d4", fileType := "video", fileSize := 2 }] :=
  C3_persist_init_roundtrip
    { primaryWriteOk := true, backupWriteOk := true,
      nowB36 := "t", randB36 := "r", nowIso := "ts" }
    { catalog :=
        [{ id := "p", fileName := "p.png", description := "one",
           uploadDate := "d3", fileType := "image", fileSize := 1 },
         { id := "q", fileName := "q.mp4", description := "two",
           uploadDate := "d4", fileType := "video", fileSize := 2 }],
      primarySlot := .absent, backupSlot := .absent }
    (some "lu") rfl rfl

end MediaMix

/-! ## Helper lemmas about `findIndex` on ids and the mutation paths -/

namespace MediaMix

theorem findIdx_id_lt_length {l : List MediaRecord} {id : String}
    (h : id ∈ l.map (fun r => r.id)) :
    l.findIdx (fun r => r.id = id) < l.length := by
  apply List.findIdx_lt_length_of_exists
  rcases List.mem_map.1 h with ⟨r, hr, hid⟩
  exact ⟨r, hr, by simp [hid]⟩

theorem not_findIdx_id_lt_length {l : List MediaRecord} {id : String}
    (h : id ∉ l.map (fun r => r.id)) :
    ¬ l.findIdx (fun r => r.id = id) < l.length := by
  rw [List.findIdx_lt_length]
  rintro ⟨x, hx, hpx⟩
  exact h (List.mem_map.2 ⟨x, hx, by simpa using hpx⟩)

theorem findIdx_id_get {l : List MediaRecord} {id : String}
    (h : l.findIdx (fun r => r.id = id) < l.length) :
    (l.get ⟨l.findIdx (fun r => r.id = id), h⟩).id = id := by
  have := @List.findIdx_getElem _ (fun r => decide (r.id = id)) l h
  simpa using this

theorem nodup_id_eq_index {l : List MediaRecord}
    (hN : (l.map (fun r => r.id)).Nodup) {i j : Nat}
    (hi : i < l.length) (hj : j < l.length)
    (h : (l.get ⟨i, hi⟩).id = (l.get ⟨j, hj⟩).id) : i = j := by
  have hmi : i < (l.map (fun r => r.id)).length := by simpa using hi
  have hmj : j < (l.map (fun r => r.id)).length := by simpa using hj
  have hg : (l.map (fun r => r.id)).get ⟨i, hmi⟩ =
      (l.map (fun r => r.id)).get ⟨j, hmj⟩ := by
    simpa using h
  exact congrArg Fin.val ((List.Nodup.get_inj_iff hN).1 hg)

theorem createMedia_ok (env : Env) (st : SysState) (d : MockBackendAPI.MediaData)
    (hp : env.primaryWriteOk = true) (hb : env.backupWriteOk = true) :
    MockBackendAPI.createMedia env st d =
      (.ok (MockBackendAPI.mkMediaItem env d),
       { catalog := st.catalog ++ [MockBackendAPI.mkMediaItem env d],
         primarySlot := .good
           { mediaItems := st.catalog ++ [MockBackendAPI.mkMediaItem env d],
             lastUpdated := some env.nowIso, version := "1.0" },
         backupSlot := .good
           { mediaItems := st.catalog ++ [MockBackendAPI.mkMediaItem env d],
             lastUpdated := some env.nowIso, version := "1.0" } }) := by
  unfold MockBackendAPI.createMedia
  simp only [saveToStorage_both_ok, hp, hb]

theorem updateMedia_ok (env : Env) (st : SysState) (id : String)
    (u : MockBackendAPI.MediaUpdates)
    (hp : env.primaryWriteOk = true) (hb : env.backupWriteOk = true)
    (hi : st.catalog.findIdx (fun r => r.id = id) < st.catalog.length) :
    MockBackendAPI.updateMedia env st id u =
      (.ok (MockBackendAPI.applyUpdates
          (st.catalog.get ⟨st.catalog.findIdx (fun r => r.id = id), hi⟩) u),
       { catalog := st.catalog.set (st.catalog.findIdx (fun r => r.id = id))
           (MockBackendAPI.applyUpdates
             (st.catalog.get ⟨st.catalog.findIdx (fun r => r.id = id), hi⟩) u),
         primarySlot := .good
           { mediaItems := st.catalog.set (st.catalog.findIdx (fun r => r.id = id))
               (MockBackendAPI.applyUpdates
                 (st.catalog.get ⟨st.catalog.findIdx (fun r => r.id = id), hi⟩) u),
             lastUpdated := some env.nowIso, version := "1.0" },
         backupSlot := .good
           { mediaItems := st.catalog.set (st.catalog.findIdx (fun r => r.id = id))
               (MockBackendAPI.applyUpdates
                 (st.catalog.get ⟨st.catalog.findIdx (fun r => r.id = id), hi⟩) u),
             lastUpdated := some env.nowIso, version := "1.0" } }) := by
  unfold MockBackendAPI.updateMedia
  simp only [dif_pos hi, saveToStorage_both_ok, hp, hb]

theorem updateMedia_notFound (env : Env) (st : SysState) (id : String)
    (u : MockBackendAPI.MediaUpdates)
    (hno : ¬ st.catalog.findIdx (fun r => r.id = id) < st.catalog.length) :
    MockBackendAPI.updateMedia env st id u = (.error .notFound, st) := by
  unfold MockBackendAPI.updateMedia
  simp only [dif_neg hno]

theorem updateMedia_fst_ne_notFound (env : Env) (st : SysState) (id : String)
    (u : MockBackendAPI.MediaUpdates)
    (hi : st.catalog.findIdx (fun r => r.id = id) < st.catalog.length) :
    (MockBackendAPI.updateMedia env st id u).1 ≠ .error .notFound := by
  unfold MockBackendAPI.updateMedia
  simp only [dif_pos hi]
  cases hp : env.primaryWriteOk <;> cases hb : env.backupWriteOk <;>
    simp [MockBackendAPI.saveToStorage, hp, hb]

theorem deleteMedia_ok (env : Env) (st : SysState) (id : String)
    (hp : env.primaryWriteOk = true) (hb : env.backupWriteOk = true)
    (hi : st.catalog.findIdx (fun r => r.id = id) < st.catalog.length) :
    MockBackendAPI.deleteMedia env st id =
      (.ok (),
       { catalog := st.catalog.eraseIdx (st.catalog.findIdx (fun r => r.id = id)),
         primarySlot := .good
           { mediaItems := st.catalog.eraseIdx (st.catalog.findIdx (fun r => r.id = id)),
             lastUpdated := some env.nowIso, version := "1.0" },
         backupSlot := .good
           { mediaItems := st.catalog.eraseIdx (st.catalog.findIdx (fun r => r.id = id)),
             lastUpdated := some env.nowIso, version := "1.0" } }) := by
  unfold MockBackendAPI.deleteMedia
  simp only [if_pos hi, saveToStorage_both_ok, hp, hb]

theorem deleteMedia_notFound (env : Env) (st : SysState) (id : String)
    (hno : ¬ st.catalog.findIdx (fun r => r.id = id) < st.catalog.length) :
    MockBackendAPI.deleteMedia env st id = (.error .notFound, st) := by
  unfold MockBackendAPI.deleteMedia
  simp only [if_neg hno]

theorem deleteMedia_fst_ne_notFound (env : Env) (st : SysState) (id : String)
    (hi : st.catalog.findIdx (fun r => r.id = id) < st.catalog.length) :
    (MockBackendAPI.deleteMedia env st id).1 ≠ .error .notFound := by
  unfold MockBackendAPI.deleteMedia
  simp only [if_pos hi]
  cases hp : env.primaryWriteOk <;> cases hb : env.backupWriteOk <;>
    simp [MockBackendAPI.saveToStorage, hp, hb]

theorem id_not_mem_map_eraseIdx {l : List MediaRecord} {id : String}
    (hN : (l.map (fun r => r.id)).Nodup)
    (hi : l.findIdx (fun r => r.id = id) < l.length) :
    id ∉ (l.eraseIdx (l.findIdx (fun r => r.id = id))).map (fun r => r.id) := by
  intro hmem
  rcases List.mem_map.1 hmem with ⟨r, hr, hrid⟩
  rcases List.mem_iff_getElem.1 hr with ⟨j, hj, hjr⟩
  rw [List.getElem_eraseIdx] at hjr
  have hidx := findIdx_id_get hi
  split at hjr
  · rename_i hlt
    have hjl : j < l.length := by
      have := List.length_eraseIdx_le l (l.findIdx (fun r => r.id = id))
      omega
    have : (l.get ⟨j, hjl⟩).id = id := by
      rw [show l.get ⟨j, hjl⟩ = r from hjr]
      exact hrid
    have heq : j = l.findIdx (fun r => r.id = id) :=
      nodup_id_eq_index hN hjl hi (this.trans hidx.symm)
    omega
  · rename_i hge
    have hjl : j + 1 < l.length := by
      rw [List.length_eraseIdx_of_lt hi] at hj
      omega
    have : (l.get ⟨j + 1, hjl⟩).id = id := by
      rw [show l.get ⟨j + 1, hjl⟩ = r from hjr]
      exact hrid
    have heq : j + 1 = l.findIdx (fun r => r.id = id) :=
      nodup_id_eq_index hN hjl hi (this.trans hidx.symm)
    omega

end MediaMix

/-! ## C5 -/

namespace MediaMix

/-- C5: on a Catalog with unique ids, updating an existing id with
`{description: d}` returns that record with `description = d` and every
other field (`id`, `fileName`, `uploadDate`, `fileType`, `fileSize`) taken
unchanged from the old record; a subsequent `list` shows the catalog with
only that position replaced, every other record unchanged in its position,
and exactly that position carrying the id. -/
theorem C5_update_description_frame (env : Env) (st : SysState) (id d : String)
    (hN : (st.catalog.map (fun r => r.id)).Nodup)
    (hi : st.catalog.findIdx (fun r => r.id = id) < st.catalog.length)
    (hp : env.primaryWriteOk = true) (hb : env.backupWriteOk = true) :
    (st.catalog.get ⟨st.catalog.findIdx (fun r => r.id = id), hi⟩).id = id ∧
    (MockBackendAPI.updateMedia env st id { description := some d }).1 =
      .ok { st.catalog.get ⟨st.catalog.findIdx (fun r => r.id = id), hi⟩ with
              description := d } ∧
    MockBackendAPI.getMedia
        (MockBackendAPI.updateMedia env st id { description := some d }).2 =
      st.catalog.set (st.catalog.findIdx (fun r => r.id = id))
        { st.catalog.get ⟨st.catalog.findIdx (fun r => r.id = id), hi⟩ with
            description := d } ∧
    (∀ j, j ≠ st.catalog.findIdx (fun r => r.id = id) →
      (MockBackendAPI.getMedia
          (MockBackendAPI.updateMedia env st id { description := some d }).2)[j]? =
        st.catalog[j]?) ∧
    (∀ j r, (MockBackendAPI.getMedia
        (MockBackendAPI.updateMedia env st id { description := some d }).2)[j]? =
          some r → r.id = id →
      j = st.catalog.findIdx (fun x => x.id = id)) := by
  have hupd := updateMedia_ok env st id { description := some d } hp hb hi
  refine ⟨findIdx_id_get hi, by rw [hupd]; rfl, by rw [hupd]; rfl, ?_, ?_⟩
  · intro j hj
    rw [hupd]
    exact List.getElem?_set_ne (Ne.symm hj)
  · intro j r hjr hrid
    by_cases hcase : j = st.catalog.findIdx (fun x => x.id = id)
    · exact hcase
    · rw [hupd] at hjr
      simp only [MockBackendAPI.getMedia] at hjr
      rw [List.getElem?_set_ne (Ne.symm hcase)] at hjr
      have hjl : j < st.catalog.length := by
        by_contra hnlt
        rw [List.getElem?_eq_none (Nat.le_of_not_lt hnlt)] at hjr
        exact Option.noConfusion hjr
      have hr : r = st.catalog.get ⟨j, hjl⟩ := by
        have h2 := @List.getElem?_eq_getElem _ st.catalog _ hjl
        rw [hjr] at h2
        exact Option.some.inj h2
      have hjeq : (st.catalog.get ⟨j, hjl⟩).id = id := by
        rw [← hr]
        exact hrid
      exact nodup_id_eq_index hN hjl hi (hjeq.trans (findIdx_id_get hi).symm)

/-- First record of the C5 witness catalog. -/
def c5A : MediaRecord :=
  { id := "a", fileName := "a.png", description := "one",
    uploadDate := "d5", fileType := "image", fileSize := 1 }

/-- Second record of the C5 witness catalog: the one being updated. -/
def c5B : MediaRecord :=
  { id := "b", fileName := "b.mp4", description := "two",
    uploadDate := "d6", fileType := "video", fileSize := 2 }

/-- Writable environment for the C5 witness. -/
def c5Env : Env :=
  { primaryWriteOk := true, backupWriteOk := true,
    nowB36 := "t", randB36 := "r", nowIso := "ts" }

/-- Pre-call state for the C5 witness: two records with distinct ids. -/
def c5St : SysState :=
  { catalog := [c5A, c5B], primarySlot := .absent, backupSlot := .absent }

/-- C5 witness: updating `"b"` with a new description on the concrete
two-record catalog returns the record with only `description` changed, the
listed catalog replaces only position 1, and position 0 is untouched. -/
theorem C5_update_description_frame_witness :
    (MockBackendAPI.updateMedia c5Env c5St "b" { description := some "new" }).1 =
      .ok { c5B with description := "new" } ∧
    MockBackendAPI.getMedia
        (MockBackendAPI.updateMedia c5Env c5St "b" { description := some "new" }).2 =
      [c5A, { c5B with description := "new" }] ∧
    (MockBackendAPI.getMedia
        (MockBackendAPI.updateMedia c5Env c5St "b" { description := some "new" }).2)[0]? =
      some c5A :=
  ⟨(C5_update_description_frame c5Env c5St "b" "new" (by decide) (by decide)
      rfl rfl).2.1,
   (C5_update_description_frame c5Env c5St "b" "new" (by decide) (by decide)
      rfl rfl).2.2.1,
   (C5_update_description_frame c5Env c5St "b" "new" (by decide) (by decide)
      rfl rfl).2.2.2.1 0 (by decide)⟩

end MediaMix

/-! ## C10 -/

namespace MediaMix

/-- C10: `updateMedia` merges EVERY supplied key of the `updates` object
into the found record — the result is the old record overwritten
key-by-key by the supplied fields, with no restriction to mutable fields:
a supplied `id`, `fileName`, `uploadDate` or `fileType` overwrites the
nominally immutable field, and the merged record replaces the old one in
place. -/
theorem C10_update_merges_every_supplied_field (env : Env) (st : SysState)
    (id : String) (u : MockBackendAPI.MediaUpdates)
    (hi : st.catalog.findIdx (fun r => r.id = id) < st.catalog.length)
    (hp : env.primaryWriteOk = true) (hb : env.backupWriteOk = true) :
    (MockBackendAPI.updateMedia env st id u).1 =
      .ok { id := u.id.getD
              (st.catalog.get ⟨st.catalog.findIdx (fun r => r.id = id), hi⟩).id,
            fileName := u.fileName.getD
              (st.catalog.get ⟨st.catalog.findIdx (fun r => r.id = id), hi⟩).fileName,
            description := u.description.getD
              (st.catalog.get ⟨st.catalog.findIdx (fun r => r.id = id), hi⟩).description,
            uploadDate := u.uploadDate.getD
              (st.catalog.get ⟨st.catalog.findIdx (fun r => r.id = id), hi⟩).uploadDate,
            fileType := u.fileType.getD
              (st.catalog.get ⟨st.catalog.findIdx (fun r => r.id = id), hi⟩).fileType,
            fileSize := u.fileSize.getD
              (st.catalog.get ⟨st.catalog.findIdx (fun r => r.id = id), hi⟩).fileSize } ∧
    (MockBackendAPI.updateMedia env st id u).2.catalog =
      st.catalog.set (st.catalog.findIdx (fun r => r.id = id))
        { id := u.id.getD
            (st.catalog.get ⟨st.catalog.findIdx (fun r => r.id = id), hi⟩).id,
          fileName := u.fileName.getD
            (st.catalog.get ⟨st.catalog.findIdx (fun r => r.id = id), hi⟩).fileName,
          description := u.description.getD
            (st.catalog.get ⟨st.catalog.findIdx (fun r => r.id = id), hi⟩).description,
          uploadDate := u.uploadDate.getD
            (st.catalog.get ⟨st.catalog.findIdx (fun r => r.id = id), hi⟩).uploadDate,
          fileType := u.fileType.getD
            (st.catalog.get ⟨st.catalog.findIdx (fun r => r.id = id), hi⟩).fileType,
          fileSize := u.fileSize.getD
            (st.catalog.get ⟨st.catalog.findIdx (fun r => r.id = id), hi⟩).fileSize } :=
  ⟨by rw [updateMedia_ok env st id u hp hb hi]; rfl,
   by rw [updateMedia_ok env st id u hp hb hi]; rfl⟩

/-- The record being clobbered in the C10 witness. -/
def c10Rec : MediaRecord :=
  { id := "k", fileName := "k.png", description := "keep",
    uploadDate := "d7", fileType := "image", fileSize := 3 }

/-- Writable environment for the C10 witness. -/
def c10Env : Env :=
  { primaryWriteOk := true, backupWriteOk := true,
    nowB36 := "t", randB36 := "r", nowIso := "ts" }

/-- C10 witness: an `updates` object supplying `id`, `fileName`,
`uploadDate` and `fileType` overwrites all four nominally immutable fields
of the stored record. -/
theorem C10_update_merges_every_supplied_field_witness :
    (MockBackendAPI.updateMedia c10Env
        { catalog := [c10Rec], primarySlot := .absent, backupSlot := .absent }
        "k"
        { id := some "z", fileName := some "z.ogg",
          uploadDate := some "d8", fileType := some "audio" }).1 =
      .ok { id := "z", fileName := "z.ogg", description := "keep",
            uploadDate := "d8", fileType := "audio", fileSize := 3 } ∧
    (MockBackendAPI.updateMedia c10Env
        { catalog := [c10Rec], primarySlot := .absent, backupSlot := .absent }
        "k"
        { id := some "z", fileName := some "z.ogg",
          uploadDate := some "d8", fileType := some "audio" }).2.catalog =
      [{ id := "z", fileName := "z.ogg", description := "keep",
         uploadDate := "d8", fileType := "audio", fileSize := 3 }] :=
  C10_update_merges_every_supplied_field c10Env
    { catalog := [c10Rec], primarySlot := .absent, backupSlot := .absent }
    "k"
    { id := some "z", fileName := some "z.ogg",
      uploadDate := some "d8", fileType := some "audio" }
    (by decide) rfl rfl

end MediaMix

/-! ## C6 -/

namespace MediaMix

/-- C6: on a Catalog with unique ids, `updateMedia` and `deleteMedia` throw
NotFound exactly when the id is absent; a NotFound call leaves the state
untouched; and deleting a present id succeeds, leaves a listed catalog no
longer containing the id, and makes a second delete of the same id fail
with NotFound without changing the state.  (`env` performs the successful
first delete; `envF` is an arbitrary environment for the failing calls.) -/
theorem C6_delete_update_notfound (env envF : Env) (st : SysState) (id : String)
    (u : MockBackendAPI.MediaUpdates)
    (hN : (st.catalog.map (fun r => r.id)).Nodup)
    (hp : env.primaryWriteOk = true) (hb : env.backupWriteOk = true) :
    ((MockBackendAPI.updateMedia envF st id u).1 = .error .notFound ↔
      id ∉ st.catalog.map (fun r => r.id)) ∧
    ((MockBackendAPI.deleteMedia envF st id).1 = .error .notFound ↔
      id ∉ st.catalog.map (fun r => r.id)) ∧
    ((MockBackendAPI.deleteMedia envF st id).1 = .error .notFound →
      (MockBackendAPI.deleteMedia envF st id).2 = st ∧
      (MockBackendAPI.updateMedia envF st id u).2 = st) ∧
    (id ∈ st.catalog.map (fun r => r.id) →
      (MockBackendAPI.deleteMedia env st id).1 = .ok () ∧
      id ∉ (MockBackendAPI.getMedia
        (MockBackendAPI.deleteMedia env st id).2).map (fun r => r.id) ∧
      (MockBackendAPI.deleteMedia envF
        (MockBackendAPI.deleteMedia env st id).2 id).1 = .error .notFound ∧
      (MockBackendAPI.deleteMedia envF
        (MockBackendAPI.deleteMedia env st id).2 id).2 =
        (MockBackendAPI.deleteMedia env st id).2) := by
  refine ⟨⟨?_, ?_⟩, ⟨?_, ?_⟩, ?_, ?_⟩
  · intro h hmem
    exact updateMedia_fst_ne_notFound envF st id u (findIdx_id_lt_length hmem) h
  · intro hmem
    rw [updateMedia_notFound envF st id u (not_findIdx_id_lt_length hmem)]
  · intro h hmem
    exact deleteMedia_fst_ne_notFound envF st id (findIdx_id_lt_length hmem) h
  · intro hmem
    rw [deleteMedia_notFound envF st id (not_findIdx_id_lt_length hmem)]
  · intro h
    have hno : ¬ st.catalog.findIdx (fun r => r.id = id) < st.catalog.length := by
      intro hpos
      exact deleteMedia_fst_ne_notFound envF st id hpos h
    rw [deleteMedia_notFound envF st id hno, updateMedia_notFound envF st id u hno]
    exact ⟨rfl, rfl⟩
  · intro hmem
    have hi := findIdx_id_lt_length hmem
    have hD := deleteMedia_ok env st id hp hb hi
    have hnot : id ∉ ((st.catalog.eraseIdx
        (st.catalog.findIdx (fun r => r.id = id))).map (fun r => r.id)) :=
      id_not_mem_map_eraseIdx hN hi
    rw [hD]
    refine ⟨rfl, hnot, ?_, ?_⟩
    · rw [deleteMedia_notFound envF _ id (not_findIdx_id_lt_length hnot)]
    · rw [deleteMedia_notFound envF _ id (not_findIdx_id_lt_length hnot)]

/-- First record of the C6 witness catalog. -/
def c6A : MediaRecord :=
  { id := "a", fileName := "a.png", description := "one",
    uploadDate := "d9", fileType := "image", fileSize := 1 }

/-- Second record of the C6 witness catalog. -/
def c6B : MediaRecord :=
  { id := "b", fileName := "b.wav", description := "two",
    uploadDate := "da", fileType := "audio", fileSize := 2 }

/-- Writable environment for the C6 witness. -/
def c6Env : Env :=
  { primaryWriteOk := true, backupWriteOk := true,
    nowB36 := "t", randB36 := "r", nowIso := "ts" }

/-- Pre-call state for the C6 witness. -/
def c6St : SysState :=
  { catalog := [c6A, c6B], primarySlot := .absent, backupSlot := .absent }

/-- C6 witness: deleting `"a"` from the concrete catalog succeeds, the
listed catalog no longer contains `"a"`, and a second delete of `"a"` fails
with NotFound leaving the state unchanged. -/
theorem C6_delete_update_notfound_witness :
    (MockBackendAPI.deleteMedia c6Env c6St "a").1 = .ok () ∧
    "a" ∉ (MockBackendAPI.getMedia
      (MockBackendAPI.deleteMedia c6Env c6St "a").2).map (fun r => r.id) ∧
    (MockBackendAPI.deleteMedia c6Env
      (MockBackendAPI.deleteMedia c6Env c6St "a").2 "a").1 = .error .notFound ∧
    (MockBackendAPI.deleteMedia c6Env
      (MockBackendAPI.deleteMedia c6Env c6St "a").2 "a").2 =
      (MockBackendAPI.deleteMedia c6Env c6St "a").2 :=
  (C6_delete_update_notfound c6Env c6Env c6St "a"
    { description := some "x" } (by decide) rfl rfl).2.2.2 (by decide)

end MediaMix

/-! ## C8 -/

namespace MediaMix

/-- Environment for the C8 counterexample: both writes succeed; the id
source (`Date.now` in base 36 plus the `Math.random` fraction) yields the
same strings on both calls — possible since `generateId` never checks
against existing ids. -/
def c8Env : Env :=
  { primaryWriteOk := true, backupWriteOk := true,
    nowB36 := "t0", randB36 := "r0", nowIso := "ts" }

/-- Create input for the C8 counterexample. -/
def c8Data : MockBackendAPI.MediaData :=
  { fileName := "a.png", description := "cat", fileType := "image", fileSize := 1 }

/-- C8 counterexample: two `createMedia` calls whose environment yields the
same `Date.now`/`Math.random` output (the code never checks freshness)
produce two records with the SAME id — the second create succeeds and its
returned id matches TWO records in the subsequent list, refuting both
"unique across the Catalog's lifetime" and "matches exactly one record". -/
theorem C8_counterexample :
    (MockBackendAPI.createMedia c8Env
        (MockBackendAPI.createMedia c8Env
          { catalog := [], primarySlot := .absent, backupSlot := .absent }
          c8Data).2 c8Data).1 =
      .ok (MockBackendAPI.mkMediaItem c8Env c8Data) ∧
    ((MockBackendAPI.getMedia
        (MockBackendAPI.createMedia c8Env
          (MockBackendAPI.createMedia c8Env
            { catalog := [], primarySlot := .absent, backupSlot := .absent }
            c8Data).2 c8Data).2).filter
      (fun r => r.id = (MockBackendAPI.mkMediaItem c8Env c8Data).id)).length = 2 :=
  ⟨rfl, by decide⟩

/-- C8 (amended): `createMedia` appends the new record at the end of the
Catalog (preserving insertion order) and returns it; PROVIDED the generated
id differs from every id already in the Catalog — which the
timestamp-plus-random generator makes likely but never checks — the
returned id matches exactly one record in a subsequent `list`. -/
theorem C8_create_appends_fresh_id_unique (env : Env) (st : SysState)
    (d : MockBackendAPI.MediaData)
    (hfresh : generateId env ∉ st.catalog.map (fun r => r.id))
    (hp : env.primaryWriteOk = true) (hb : env.backupWriteOk = true) :
    (MockBackendAPI.createMedia env st d).1 =
      .ok (MockBackendAPI.mkMediaItem env d) ∧
    MockBackendAPI.getMedia (MockBackendAPI.createMedia env st d).2 =
      st.catalog ++ [MockBackendAPI.mkMediaItem env d] ∧
    ((MockBackendAPI.getMedia (MockBackendAPI.createMedia env st d).2).filter
      (fun r => r.id = (MockBackendAPI.mkMediaItem env d).id)).length = 1 := by
  have hC := createMedia_ok env st d hp hb
  refine ⟨by rw [hC], by rw [hC]; rfl, ?_⟩
  rw [hC]
  show ((st.catalog ++ [MockBackendAPI.mkMediaItem env d]).filter
    (fun r => r.id = (MockBackendAPI.mkMediaItem env d).id)).length = 1
  rw [List.filter_append]
  have h1 : st.catalog.filter
      (fun r => r.id = (MockBackendAPI.mkMediaItem env d).id) = [] := by
    rw [List.filter_eq_nil_iff]
    intro r hr
    simp only [decide_eq_true_eq]
    intro he
    exact hfresh (List.mem_map.2 ⟨r, hr, he⟩)
  rw [h1]
  simp [MockBackendAPI.mkMediaItem]

/-- A pre-existing record for the C8 witness. -/
def c8Rec : MediaRecord :=
  { id := "old", fileName := "o.png", description := "prior",
    uploadDate := "db", fileType := "image", fileSize := 5 }

/-- C8 witness: a create whose generated id (`"t0r0"`) is fresh for the
one-record catalog appends at the end and its id matches exactly one record
in the subsequent list. -/
theorem C8_create_appends_fresh_id_unique_witness :
    (MockBackendAPI.createMedia c8Env
        { catalog := [c8Rec], primarySlot := .absent, backupSlot := .absent }
        c8Data).1 = .ok (MockBackendAPI.mkMediaItem c8Env c8Data) ∧
    MockBackendAPI.getMedia
        (MockBackendAPI.createMedia c8Env
          { catalog := [c8Rec], primarySlot := .absent, backupSlot := .absent }
          c8Data).2 =
      [c8Rec, MockBackendAPI.mkMediaItem c8Env c8Data] ∧
    ((MockBackendAPI.getMedia
        (MockBackendAPI.createMedia c8Env
          { catalog := [c8Rec], primarySlot := .absent, backupSlot := .absent }
          c8Data).2).filter
      (fun r => r.id = (MockBackendAPI.mkMediaItem c8Env c8Data).id)).length = 1 :=
  C8_create_appends_fresh_id_unique c8Env
    { catalog := [c8Rec], primarySlot := .absent, backupSlot := .absent }
    c8Data (by decide) rfl rfl

end MediaMix

/-! ## C7 -/

namespace MediaMix

/-- C7: with a valid file selected, a submission whose trimmed description
has exactly 500 characters passes validation and reaches the store (the
record is created / updated), while a trimmed description longer than 500
characters is rejected with the validation message BEFORE any store call:
the handler returns the validation error with the state — catalog and both
storage slots — completely unchanged.  The same boundary governs
`handleUpload` and `handleSaveEdit`. -/
theorem C7_description_500_boundary (env : Env) (st : SysState)
    (f : MediaFile) (raw rawE : String) (id : String)
    (hf : isValidFileType f = true)
    (hp : env.primaryWriteOk = true) (hb : env.backupWriteOk = true)
    (hi : st.catalog.findIdx (fun r => r.id = id) < st.catalog.length) :
    ((jsTrim raw).length = 500 →
      (handleUpload env st false (some f) raw).1 =
        .storeOk (MockBackendAPI.mkMediaItem env
          { fileName := f.name, description := jsTrim raw,
            fileType := getFileType f.mimeType, fileSize := f.size }) ∧
      (handleUpload env st false (some f) raw).2.catalog =
        st.catalog ++ [MockBackendAPI.mkMediaItem env
          { fileName := f.name, description := jsTrim raw,
            fileType := getFileType f.mimeType, fileSize := f.size }]) ∧
    ((jsTrim raw).length > 500 →
      handleUpload env st false (some f) raw =
        (.validationError "Description must be 500 characters or less.", st)) ∧
    ((jsTrim rawE).length = 500 →
      (handleSaveEdit env st (some id) rawE).1 = .storeDone ∧
      (handleSaveEdit env st (some id) rawE).2.catalog =
        st.catalog.set (st.catalog.findIdx (fun r => r.id = id))
          (MockBackendAPI.applyUpdates
            (st.catalog.get ⟨st.catalog.findIdx (fun r => r.id = id), hi⟩)
            { description := some (jsTrim rawE) })) ∧
    ((jsTrim rawE).length > 500 →
      handleSaveEdit env st (some id) rawE =
        (.validationError "Description must be 500 characters or less.", st)) := by
  refine ⟨?_, ?_, ?_, ?_⟩
  · intro h500
    have hne : ¬ jsTrim raw = "" := fun he => by simp [he] at h500
    have hng : ¬ (jsTrim raw).length > 500 := by omega
    have hC := createMedia_ok env st
      { fileName := f.name, description := jsTrim raw,
        fileType := getFileType f.mimeType, fileSize := f.size } hp hb
    constructor
    · simp [handleUpload, hf, hne, hng, hC]
    · simp [handleUpload, hf, hne, hng, hC]
  · intro hgt
    have hne : ¬ jsTrim raw = "" := fun he => by simp [he] at hgt
    simp [handleUpload, hf, hne, hgt]
  · intro h500
    have hne : ¬ jsTrim rawE = "" := fun he => by simp [he] at h500
    have hng : ¬ (jsTrim rawE).length > 500 := by omega
    have hU := updateMedia_ok env st id { description := some (jsTrim rawE) } hp hb hi
    constructor
    · simp [handleSaveEdit, hne, hng, hU]
    · simp [handleSaveEdit, hne, hng, hU]
  · intro hgt
    have hne : ¬ jsTrim rawE = "" := fun he => by simp [he] at hgt
    simp [handleSaveEdit, hne, hgt]

/-- The valid selected file of the C7 witness. -/
def c7File : MediaFile :=
  { name := "a.png", mimeType := "image/png", size := 2048 }

/-- The stored record edited in the C7 witness. -/
def c7Rec : MediaRecord :=
  { id := "k", fileName := "k.png", description := "prior",
    uploadDate := "dc", fileType := "image", fileSize := 3 }

/-- Writable environment for the C7 witness. -/
def c7Env : Env :=
  { primaryWriteOk := true, backupWriteOk := true,
    nowB36 := "t", randB36 := "r", nowIso := "ts" }

/-- Pre-call state for the C7 witness. -/
def c7St : SysState :=
  { catalog := [c7Rec], primarySlot := .absent, backupSlot := .absent }

/-- A 500-character description. -/
def c7Raw500 : String := ⟨List.replicate 500 'a'⟩

/-- A 501-character description. -/
def c7Raw501 : String := ⟨List.replicate 501 'a'⟩

set_option maxRecDepth 8192 in
/-- C7 witness: at exactly 500 characters the upload reaches `createMedia`
and the edit reaches `updateMedia`; at 501 characters both handlers reject
with the boundary message and leave the state untouched. -/
theorem C7_description_500_boundary_witness :
    (handleUpload c7Env c7St false (some c7File) c7Raw500).1 =
      .storeOk (MockBackendAPI.mkMediaItem c7Env
        { fileName := c7File.name, description := jsTrim c7Raw500,
          fileType := getFileType c7File.mimeType, fileSize := c7File.size }) ∧
    handleUpload c7Env c7St false (some c7File) c7Raw501 =
      (.validationError "Description must be 500 characters or less.", c7St) ∧
    (handleSaveEdit c7Env c7St (some "k") c7Raw500).1 = .storeDone ∧
    handleSaveEdit c7Env c7St (some "k") c7Raw501 =
      (.validationError "Description must be 500 characters or less.", c7St) :=
  ⟨((C7_description_500_boundary c7Env c7St c7File c7Raw500 c7Raw500 "k"
      (by decide) rfl rfl (by decide)).1 (by decide)).1,
   (C7_description_500_boundary c7Env c7St c7File c7Raw501 c7Raw501 "k"
      (by decide) rfl rfl (by decide)).2.1 (by decide),
   ((C7_description_500_boundary c7Env c7St c7File c7Raw500 c7Raw500 "k"
      (by decide) rfl rfl (by decide)).2.2.1 (by decide)).1,
   (C7_description_500_boundary c7Env c7St c7File c7Raw501 c7Raw501 "k"
      (by decide) rfl rfl (by decide)).2.2.2 (by decide)⟩

end MediaMix
